import Mathlib

/-!
Verification development for the "Material Creator from Files" Blender add-on
(`blender_material_creator.py`).

The add-on's core routine `create_materials_from_files` reads two text files
(material names and texture paths), pairs their non-blank lines positionally,
and for each pair drives a fixed sequence of host-API calls: create a material,
build a shader node graph, attach an image texture (loading the file, reusing
an already-loaded image, or creating a 1024x1024 placeholder when the file is
missing), with a red fallback colour if the texture setup raises.  Created
materials are then marked as assets.  A second routine
`create_material_planes` lays out one preview plane per material on a grid
whose width is `ceil(sqrt(n))`.

The embedding below models the host application (file system, path functions,
image loading, exception behaviour of host calls) as an explicit environment
`Env`, and the mutable host collections (`bpy.data.materials`,
`bpy.data.images`) as an explicit state `BState` threaded through the loop.
-/

namespace MaterialCreator

/-! ### Python string primitives

`str.strip()` removes the characters of Python's whitespace set from both
ends; `str.strip('"\'')` removes every leading and trailing quote character
(single or double, in any mixture). -/

/-- Python's whitespace set for `str.strip()`: space, tab, newline, carriage
return, vertical tab, form feed. -/
def isPySpace (c : Char) : Bool :=
  c = ' ' || c = '\t' || c = '\n' || c = '\r' || c = Char.ofNat 11 || c = Char.ofNat 12

/-- The character set of `line.strip('"\'')`: double or single quote. -/
def isQuoteChar (c : Char) : Bool :=
  c = '"' || c = '\''

/-- Python `str.strip(chars)` on a character list: drop characters satisfying
`p` from the front and from the back. -/
def stripList (p : Char → Bool) (l : List Char) : List Char :=
  ((l.dropWhile p).reverse.dropWhile p).reverse

/-- Python `line.strip()`. -/
def pyStrip (s : String) : String :=
  (stripList isPySpace s.toList).asString

/-- Python `line.strip('"\'')`. -/
def stripQuotes (s : String) : String :=
  (stripList isQuoteChar s.toList).asString

/-! ### Parsing the two input files

`material_names = [line.strip() for line in f.readlines() if line.strip()]`
and the loop that strips quotes from each non-blank texture-path line. -/

/-- Non-blank stripped lines of the material-names file. -/
def parseMaterialNames (lines : List String) : List String :=
  (lines.map pyStrip).filter (fun s => s ≠ "")

/-- Non-blank stripped lines of the texture-paths file, each with surrounding
quote characters removed. -/
def parseTexturePaths (lines : List String) : List String :=
  ((lines.map pyStrip).filter (fun s => s ≠ "")).map stripQuotes

/-! ### Host data model -/

/-- An image datablock in `bpy.data.images`. -/
structure Image where
  name : String
  filepath : String
  width : Nat
  height : Nat
  source : String
  deriving Repr, DecidableEq, Inhabited

/-- The five shader nodes the routine creates, in creation order. -/
def shaderNodeTypes : List String :=
  ["ShaderNodeOutputMaterial", "ShaderNodeBsdfPrincipled",
   "ShaderNodeTexCoord", "ShaderNodeMapping", "ShaderNodeTexImage"]

/-- A material datablock in `bpy.data.materials`.  `baseColor` is the
Principled BSDF Base Color default value when the routine sets it explicitly
(only in the fallback branch); `texImage` is the index (into the image
collection) of the image assigned to the material's image texture node. -/
structure Material where
  name : String
  nodes : List String
  links : Nat
  baseColor : Option (ℚ × ℚ × ℚ × ℚ)
  texImage : Option Nat
  isAsset : Bool
  deriving Repr, DecidableEq, Inhabited

/-- The host collections the routine reads and mutates. -/
structure BState where
  materials : List Material
  images : List Image
  deriving Repr, DecidableEq, Inhabited

/-- Outcome of `open(path).readlines()`: the file's lines, a
`FileNotFoundError`, or some other reading exception. -/
inductive FileResult where
  | found (lines : List String)
  | notFound
  | readError (msg : String)
  deriving Repr, DecidableEq, Inhabited

/-- The host application and operating system, as the oracle answering every
external call the routine makes: file reads, `os.path` functions, disk
existence checks, and whether each fallible host call raises. -/
structure Env where
  readFile : String → FileResult
  diskExists : String → Bool
  normpath : String → String
  basename : String → String
  /-- whether `bpy.data.images.load(path)` raises for this path -/
  loadRaises : String → Bool
  /-- name the host gives an image loaded from this path -/
  loadedName : String → String
  /-- pixel size of the image loaded from this path -/
  loadedSize : String → Nat × Nat
  /-- whether `bpy.data.images.new(name, 1024, 1024)` raises for this name -/
  newImageRaises : String → Bool
  /-- whether `mat.asset_mark()` raises for this material name -/
  assetMarkRaises : String → Bool
  /-- whether the alternative `bpy.ops.asset.mark` call raises for this name -/
  altMarkRaises : String → Bool

/-- Replace the element at position `i` by its image under `f` (used for
in-place mutation of one datablock inside a host collection). -/
def listModify (f : α → α) : Nat → List α → List α
  | _, [] => []
  | 0, a :: as => f a :: as
  | n + 1, a :: as => a :: listModify f n as

/-- The fallback Base Color `(0.8, 0.2, 0.2, 1.0)` set when texture setup
raises. -/
def fallbackColor : ℚ × ℚ × ℚ × ℚ := (0.8, 0.2, 0.2, 1.0)

/-- The `try:` block of the texture setup for one material.  On success it
returns the updated image collection and the index of the image assigned to
the texture node; `.error ()` models an exception escaping to the
`except Exception` handler.

Mirrors the source: normalize the path, search `bpy.data.images` for an image
whose non-empty filepath normalizes to the same path, otherwise load the file
when it exists on disk, otherwise create a 1024x1024 placeholder named after
the basename; in every branch the chosen image's filepath is then set to the
normalized path.  (`img.reload()` failures are swallowed by an inner bare
`except` and change none of the tracked fields.) -/
def texSetup (env : Env) (images : List Image) (texture_path : String) :
    Except Unit (List Image × Nat) :=
  let normalized := env.normpath texture_path
  let img_name := env.basename normalized
  match images.findIdx?
      (fun im => im.filepath != "" && env.normpath im.filepath == normalized) with
  | some j =>
      .ok (listModify (fun im => { im with filepath := normalized }) j images, j)
  | none =>
      if env.diskExists normalized then
        if env.loadRaises normalized then .error ()
        else
          let img : Image :=
            { name := env.loadedName normalized, filepath := normalized,
              width := (env.loadedSize normalized).1,
              height := (env.loadedSize normalized).2, source := "FILE" }
          .ok (images ++ [img], images.length)
      else
        if env.newImageRaises img_name then .error ()
        else
          let img : Image :=
            { name := img_name, filepath := normalized,
              width := 1024, height := 1024, source := "FILE" }
          .ok (images ++ [img], images.length)

/-- State threaded through the creation loop: the host collections, the
indices (into the material collection) of the materials this run created, and
the log of `(mat_name, texture_path)` pairs the loop iterated over (the
`"Creating material ..."` prints). -/
structure LoopState where
  st : BState
  created : List Nat
  log : List (String × String)
  deriving Repr, DecidableEq, Inhabited

/-- One iteration of `for i, (mat_name, texture_path) in enumerate(zip(...))`:
log the pair; skip it when a material with that name already exists; otherwise
create the material with its five shader nodes, run the texture setup (four
links plus the alpha link on success; fallback Base Color and no assigned
image on exception), and record the new material as created. -/
def processPair (env : Env) (ls : LoopState) (pair : String × String) : LoopState :=
  if (ls.st.materials.map (fun m => m.name)).contains pair.1 then
    { ls with log := ls.log ++ [pair] }
  else
    match texSetup env ls.st.images pair.2 with
    | .ok (images2, j) =>
        { st := { materials := ls.st.materials ++
                    [{ name := pair.1, nodes := shaderNodeTypes, links := 5,
                       baseColor := none, texImage := some j, isAsset := false }],
                  images := images2 },
          created := ls.created ++ [ls.st.materials.length],
          log := ls.log ++ [pair] }
    | .error _ =>
        { st := { materials := ls.st.materials ++
                    [{ name := pair.1, nodes := shaderNodeTypes, links := 4,
                       baseColor := some fallbackColor, texImage := none, isAsset := false }],
                  images := ls.st.images },
          created := ls.created ++ [ls.st.materials.length],
          log := ls.log ++ [pair] }

/-- Mark one created material (by index) as an asset: marked when
`asset_mark()` succeeds, or when it raises but the alternative
`bpy.ops.asset.mark` call succeeds. -/
def markOne (env : Env) (mats : List Material) (idx : Nat) : List Material :=
  listModify
    (fun m => { m with isAsset := !env.assetMarkRaises m.name || !env.altMarkRaises m.name })
    idx mats

/-- `for mat in created_materials: ... asset_mark ...` -/
def markAssets (env : Env) (mats : List Material) (created : List Nat) : List Material :=
  created.foldl (markOne env) mats

/-- The dictionary `create_materials_from_files` returns: `success=False`
with a message, or `success=True` with the created-material count. -/
inductive CreateOutcome where
  | failure (message : String)
  | success (count : Nat)
  deriving Repr, DecidableEq, Inhabited

/-- Full observable result of a run: the returned dictionary, the warning
prints, the pair log, and the final host state. -/
structure CreateResult where
  outcome : CreateOutcome
  warnings : List String
  log : List (String × String)
  state : BState
  deriving Repr, DecidableEq, Inhabited

/-- The warning printed when the two files have different line counts. -/
def mismatchWarning (nNames nPaths : Nat) : String :=
  "Warning: Number of materials (" ++ toString nNames ++
    ") doesn't match number of texture paths (" ++ toString nPaths ++ ")"

/-- `MATERIAL_OT_create_materials.create_materials_from_files`:
read and parse both files (failing on a missing or unreadable file and on a
file with no non-blank lines), truncate both lists to the shorter length with
a warning when their lengths differ, run the creation loop over the zipped
pairs, mark the created materials as assets, and report the created count. -/
def create_materials_from_files (env : Env) (st : BState)
    (input_file_path path_file_path : String) : CreateResult :=
  match env.readFile input_file_path with
  | .notFound =>
      { outcome := .failure ("Could not find input file: " ++ input_file_path),
        warnings := [], log := [], state := st }
  | .readError e =>
      { outcome := .failure ("Error reading input file: " ++ e),
        warnings := [], log := [], state := st }
  | .found inputLines =>
    match env.readFile path_file_path with
    | .notFound =>
        { outcome := .failure ("Could not find path file: " ++ path_file_path),
          warnings := [], log := [], state := st }
    | .readError e =>
        { outcome := .failure ("Error reading path file: " ++ e),
          warnings := [], log := [], state := st }
    | .found pathLines =>
      let material_names := parseMaterialNames inputLines
      let texture_paths := parseTexturePaths pathLines
      if material_names.isEmpty then
        { outcome := .failure "No material names found in input file",
          warnings := [], log := [], state := st }
      else if texture_paths.isEmpty then
        { outcome := .failure "No texture paths found in path file",
          warnings := [], log := [], state := st }
      else
        let count := min material_names.length texture_paths.length
        let warnings :=
          if material_names.length ≠ texture_paths.length then
            [mismatchWarning material_names.length texture_paths.length]
          else []
        let names :=
          if material_names.length ≠ texture_paths.length then
            material_names.take count
          else material_names
        let paths :=
          if material_names.length ≠ texture_paths.length then
            texture_paths.take count
          else texture_paths
        let ls := (names.zip paths).foldl (processPair env)
            { st := st, created := [], log := [] }
        { outcome := .success ls.created.length,
          warnings := warnings, log := ls.log,
          state := { materials := markAssets env ls.st.materials ls.created,
                     images := ls.st.images } }

/-- Number of pairs the loop skips because a material with that name already
exists when the pair is reached: the name is in `existing` (the collection
before the run) or occurred earlier in the input list itself. -/
def dupSkipCount (existing : List String) : List String → Nat
  | [] => 0
  | n :: rest =>
      (if n ∈ existing then 1 else 0) + dupSkipCount (n :: existing) rest

/-! ### The plane-grid routine -/

/-- `math.ceil(math.sqrt(n))`, computed on naturals. -/
def natCeilSqrt (n : Nat) : Nat :=
  if Nat.sqrt n * Nat.sqrt n = n then Nat.sqrt n else Nat.sqrt n + 1

/-- `plane_size = 2.0` -/
def plane_size : ℚ := 2.0

/-- `spacing = 0.5` -/
def spacing : ℚ := 0.5

/-- `grid_spacing = plane_size + spacing` -/
def grid_spacing : ℚ := plane_size + spacing

/-- A preview plane object: named after its material, with its mesh name and
its world position. -/
structure PlaneObj where
  name : String
  meshName : String
  materialName : String
  position : ℚ × ℚ × ℚ
  deriving Repr, DecidableEq, Inhabited

/-- The plane created for material number `i` (0-based) in a grid of width
`w`: row `i / w`, column `i % w`, at `(col * grid_spacing, row * grid_spacing, 0)`. -/
def planeFor (w : Nat) (i : Nat) (matName : String) : PlaneObj :=
  let row := i / w
  let col := i % w
  { name := matName, meshName := "Plane_" ++ matName, materialName := matName,
    position := ((col : ℚ) * grid_spacing, (row : ℚ) * grid_spacing, 0) }

/-- Result of `create_material_planes`. -/
inductive PlanesResult where
  | failure (message : String)
  | success (planes : List PlaneObj) (message : String)
  deriving Repr, DecidableEq, Inhabited

/-- `MATERIAL_OT_create_planes.create_material_planes`: fail when the material
collection is empty, otherwise create one plane per material on a grid of
width `ceil(sqrt(n))`. -/
def create_material_planes (materials : List Material) : PlanesResult :=
  if materials.isEmpty then .failure "No materials found in the scene!"
  else
    let grid_width := natCeilSqrt materials.length
    let planes := materials.enum.map (fun p => planeFor grid_width p.1 p.2.name)
    .success planes
      ("Successfully created " ++ toString materials.length ++
        " planes arranged in a " ++ toString grid_width ++ "x" ++
        toString ((materials.length + grid_width - 1) / grid_width) ++ " grid")

/-! ### Helper lemmas -/

theorem listModify_getElem?_ne (f : α → α) (i j : Nat) (l : List α) (h : i ≠ j) :
    (listModify f i l)[j]? = l[j]? := by
  induction l generalizing i j with
  | nil => simp [listModify]
  | cons a t ih =>
    cases i with
    | zero =>
      cases j with
      | zero => exact absurd rfl h
      | succ j => simp [listModify]
    | succ i =>
      cases j with
      | zero => simp [listModify]
      | succ j => simpa [listModify] using ih i j (by omega)

theorem processPair_skipped (env : Env) (ls : LoopState) (pair : String × String)
    (h : (ls.st.materials.map (fun m => m.name)).contains pair.1 = true) :
    processPair env ls pair = { ls with log := ls.log ++ [pair] } := by
  unfold processPair
  rw [if_pos h]

theorem processPair_created (env : Env) (ls : LoopState) (pair : String × String)
    (h : (ls.st.materials.map (fun m => m.name)).contains pair.1 = false) :
    ∃ mat images2, mat.name = pair.1 ∧
      processPair env ls pair =
        { st := { materials := ls.st.materials ++ [mat], images := images2 },
          created := ls.created ++ [ls.st.materials.length],
          log := ls.log ++ [pair] } := by
  have hnot : ¬ ((ls.st.materials.map (fun m => m.name)).contains pair.1 = true) := by
    rw [h]; exact Bool.false_ne_true
  cases htex : texSetup env ls.st.images pair.2 with
  | error e =>
    refine ⟨{ name := pair.1, nodes := shaderNodeTypes, links := 4,
              baseColor := some fallbackColor, texImage := none, isAsset := false },
            ls.st.images, rfl, ?_⟩
    unfold processPair
    rw [if_neg hnot, htex]
  | ok v =>
    obtain ⟨images2, j⟩ := v
    refine ⟨{ name := pair.1, nodes := shaderNodeTypes, links := 5,
              baseColor := none, texImage := some j, isAsset := false },
            images2, rfl, ?_⟩
    unfold processPair
    rw [if_neg hnot, htex]

theorem processPair_log (env : Env) (ls : LoopState) (q : String × String) :
    (processPair env ls q).log = ls.log ++ [q] := by
  cases h : (ls.st.materials.map (fun m => m.name)).contains q.1 with
  | true => rw [processPair_skipped env ls q h]
  | false =>
    obtain ⟨mat, images2, -, heq⟩ := processPair_created env ls q h
    rw [heq]

theorem loop_log (env : Env) :
    ∀ (ps : List (String × String)) (ls : LoopState),
      (ps.foldl (processPair env) ls).log = ls.log ++ ps := by
  intro ps
  induction ps with
  | nil => intro ls; simp
  | cons q rest ih =>
    intro ls
    rw [List.foldl_cons, ih, processPair_log, List.append_assoc]
    rfl

/-- The creation loop's bookkeeping: starting from a state whose material
names are exactly `E`, the number of created materials plus the number of
skipped pairs is the number of pairs, and the final material names are the
processed names together with `E`. -/
theorem loop_names_count (env : Env) :
    ∀ (ps : List (String × String)) (ls : LoopState) (E : List String),
      (∀ x, x ∈ ls.st.materials.map (fun m => m.name) ↔ x ∈ E) →
      ((ps.foldl (processPair env) ls).created.length
            + dupSkipCount E (ps.map Prod.fst)
          = ls.created.length + ps.length)
        ∧ ∀ x, x ∈ (ps.foldl (processPair env) ls).st.materials.map (fun m => m.name) ↔
            x ∈ ps.map Prod.fst ∨ x ∈ E := by
  intro ps
  induction ps with
  | nil =>
    intro ls E hE
    refine ⟨by simp [dupSkipCount], fun x => ?_⟩
    simpa using hE x
  | cons q rest ih =>
    intro ls E hE
    rw [List.foldl_cons]
    cases hc : (ls.st.materials.map (fun m => m.name)).contains q.1 with
    | true =>
      have hnE : q.1 ∈ E := (hE q.1).1 (List.elem_iff.1 hc)
      rw [processPair_skipped env ls q hc]
      have hE' : ∀ x,
          x ∈ ({ ls with log := ls.log ++ [q] } : LoopState).st.materials.map
              (fun m => m.name) ↔ x ∈ q.1 :: E := by
        intro x
        rw [List.mem_cons]
        constructor
        · intro hx; exact Or.inr ((hE x).1 hx)
        · rintro (rfl | hx)
          · exact (hE q.1).2 hnE
          · exact (hE x).2 hx
      obtain ⟨h1, h2⟩ := ih _ (q.1 :: E) hE'
      constructor
      · simp only [List.map_cons, dupSkipCount, if_pos hnE, List.length_cons]
        simp only [List.length_append, List.length_cons, List.length_nil] at h1 ⊢
        omega
      · intro x
        rw [h2 x]
        simp only [List.map_cons, List.mem_cons]
        tauto
    | false =>
      have hnE : q.1 ∉ E := by
        intro hmem
        have : (ls.st.materials.map (fun m => m.name)).contains q.1 = true :=
          List.elem_iff.2 ((hE q.1).2 hmem)
        rw [hc] at this
        exact Bool.false_ne_true this
      obtain ⟨mat, images2, hname, heq⟩ := processPair_created env ls q hc
      rw [heq]
      have hE' : ∀ x,
          x ∈ ({ st := { materials := ls.st.materials ++ [mat], images := images2 },
                 created := ls.created ++ [ls.st.materials.length],
                 log := ls.log ++ [q] } : LoopState).st.materials.map
              (fun m => m.name) ↔ x ∈ q.1 :: E := by
        intro x
        simp only [List.map_append, List.map_cons, List.map_nil, List.mem_append,
          List.mem_cons, List.mem_singleton, hname, List.not_mem_nil, or_false]
        rw [hE x]
        tauto
      obtain ⟨h1, h2⟩ := ih _ (q.1 :: E) hE'
      constructor
      · simp only [List.map_cons, dupSkipCount, if_neg hnE, List.length_cons]
        simp only [List.length_append, List.length_cons, List.length_nil] at h1 ⊢
        omega
      · intro x
        rw [h2 x]
        simp only [List.map_cons, List.mem_cons]
        tauto

/-- Characterization of a run that passes all the input checks: both files
read, both parsed lists non-empty.  The run reduces to the creation loop over
the two lists truncated to the shorter length, followed by asset marking,
with the mismatch warning exactly when the lengths differ. -/
theorem create_run (env : Env) (st : BState) (ip pp : String)
    (L1 L2 : List String)
    (h1 : env.readFile ip = .found L1) (h2 : env.readFile pp = .found L2)
    (hn : parseMaterialNames L1 ≠ []) (hp : parseTexturePaths L2 ≠ []) :
    create_materials_from_files env st ip pp =
      (let names := parseMaterialNames L1
       let paths := parseTexturePaths L2
       let m := min names.length paths.length
       let lsr := ((names.take m).zip (paths.take m)).foldl (processPair env)
           { st := st, created := [], log := [] }
       { outcome := .success lsr.created.length,
         warnings := if names.length ≠ paths.length
           then [mismatchWarning names.length paths.length] else [],
         log := lsr.log,
         state := { materials := markAssets env lsr.st.materials lsr.created,
                    images := lsr.st.images } }) := by
  have hn' : ¬ ((parseMaterialNames L1).isEmpty = true) := by
    rw [List.isEmpty_eq_true]; exact hn
  have hp' : ¬ ((parseTexturePaths L2).isEmpty = true) := by
    rw [List.isEmpty_eq_true]; exact hp
  unfold create_materials_from_files
  rw [h1, h2]
  simp only []
  rw [if_neg hn', if_neg hp']
  by_cases hlen : (parseMaterialNames L1).length = (parseTexturePaths L2).length
  · rw [if_neg (not_not_intro hlen), if_neg (not_not_intro hlen),
      if_neg (not_not_intro hlen)]
    have hm : min (parseMaterialNames L1).length (parseTexturePaths L2).length
        = (parseMaterialNames L1).length := by omega
    have ht1 : (parseMaterialNames L1).take
        (min (parseMaterialNames L1).length (parseTexturePaths L2).length)
        = parseMaterialNames L1 := by rw [hm, List.take_length]
    have ht2 : (parseTexturePaths L2).take
        (min (parseMaterialNames L1).length (parseTexturePaths L2).length)
        = parseTexturePaths L2 := by rw [hm, hlen, List.take_length]
    simp only [ht1, ht2, if_neg (not_not_intro hlen)]
  · rw [if_pos hlen, if_pos hlen, if_pos hlen]

/-! ### Concrete host environments used to instantiate the theorems -/

/-- A host where both input files exist ("a" appears twice among the names),
every host call succeeds, and no texture file is on disk. -/
def envA : Env :=
  { readFile := fun p =>
      if p = "names.txt" then .found ["  a  ", "", "b", "a"]
      else if p = "paths.txt" then .found ["\"p1\"", "'p2'", "p3"]
      else .notFound,
    diskExists := fun _ => false,
    normpath := fun s => s,
    basename := fun s => s,
    loadRaises := fun _ => false,
    loadedName := fun s => s,
    loadedSize := fun _ => (64, 64),
    newImageRaises := fun _ => false,
    assetMarkRaises := fun _ => false,
    altMarkRaises := fun _ => true }

/-- An empty scene. -/
def st0 : BState := { materials := [], images := [] }

/-! ### C1 -/

/-- C1: whenever both files are read and both parsed line lists are
non-empty, the count reported on success equals
`min(len(material_names), len(texture_paths))` minus the number of pairs
skipped because a material with that name already exists — counting both
names present in the collection before the run and names repeated earlier in
the input itself. -/
theorem created_count_eq_min_sub_skipped (env : Env) (st : BState)
    (ip pp : String) (L1 L2 : List String)
    (h1 : env.readFile ip = .found L1) (h2 : env.readFile pp = .found L2)
    (hn : parseMaterialNames L1 ≠ []) (hp : parseTexturePaths L2 ≠ []) :
    (create_materials_from_files env st ip pp).outcome =
      .success (min (parseMaterialNames L1).length (parseTexturePaths L2).length
        - dupSkipCount (st.materials.map (fun m => m.name))
            ((parseMaterialNames L1).take
              (min (parseMaterialNames L1).length (parseTexturePaths L2).length))) := by
  rw [create_run env st ip pp L1 L2 h1 h2 hn hp]
  simp only []
  set names := parseMaterialNames L1 with hnames
  set paths := parseTexturePaths L2 with hpaths
  set m := min names.length paths.length with hm
  obtain ⟨hcnt, -⟩ := loop_names_count env ((names.take m).zip (paths.take m))
      { st := st, created := [], log := [] }
      (st.materials.map (fun mt => mt.name)) (fun x => Iff.rfl)
  have hlen1 : (names.take m).length = m := by
    rw [List.length_take]; omega
  have hlen2 : (paths.take m).length = m := by
    rw [List.length_take]; omega
  have hfst : ((names.take m).zip (paths.take m)).map Prod.fst = names.take m :=
    List.map_fst_zip _ _ (by rw [hlen1, hlen2])
  have hzlen : ((names.take m).zip (paths.take m)).length = m := by
    rw [List.length_zip, hlen1, hlen2, Nat.min_self]
  rw [hfst, hzlen] at hcnt
  simp only [List.length_nil] at hcnt
  have hfin : (((names.take m).zip (paths.take m)).foldl (processPair env)
      { st := st, created := [], log := [] }).created.length
      = m - dupSkipCount (st.materials.map (fun mt => mt.name)) (names.take m) := by
    omega
  rw [hfin]

/-- Witness for C1: three names ("a", "b", "a") and three paths in an empty
scene give the count `3 - 1 = 2` (the repeated "a" is skipped). -/
theorem created_count_eq_min_sub_skipped_witness :
    (create_materials_from_files envA st0 "names.txt" "paths.txt").outcome =
      .success (min (parseMaterialNames ["  a  ", "", "b", "a"]).length
          (parseTexturePaths ["\"p1\"", "'p2'", "p3"]).length
        - dupSkipCount (st0.materials.map (fun m => m.name))
            ((parseMaterialNames ["  a  ", "", "b", "a"]).take
              (min (parseMaterialNames ["  a  ", "", "b", "a"]).length
                (parseTexturePaths ["\"p1\"", "'p2'", "p3"]).length))) :=
  created_count_eq_min_sub_skipped envA st0 "names.txt" "paths.txt" _ _
    (by decide) (by decide) (by decide) (by decide)

/-! ### C3 -/

/-- C3: when the number of non-empty name lines differs from the number of
non-empty path lines (both non-zero), the run emits the mismatch warning,
processes exactly the two lists truncated to the shorter length, and still
returns success. -/
theorem mismatch_truncates_warns_succeeds (env : Env) (st : BState)
    (ip pp : String) (L1 L2 : List String)
    (h1 : env.readFile ip = .found L1) (h2 : env.readFile pp = .found L2)
    (hn : parseMaterialNames L1 ≠ []) (hp : parseTexturePaths L2 ≠ [])
    (hne : (parseMaterialNames L1).length ≠ (parseTexturePaths L2).length) :
    (create_materials_from_files env st ip pp).warnings =
        [mismatchWarning (parseMaterialNames L1).length (parseTexturePaths L2).length]
      ∧ (create_materials_from_files env st ip pp).log =
        ((parseMaterialNames L1).take
            (min (parseMaterialNames L1).length (parseTexturePaths L2).length)).zip
          ((parseTexturePaths L2).take
            (min (parseMaterialNames L1).length (parseTexturePaths L2).length))
      ∧ ∃ c, (create_materials_from_files env st ip pp).outcome = .success c
          ∧ c ≤ min (parseMaterialNames L1).length (parseTexturePaths L2).length := by
  rw [create_run env st ip pp L1 L2 h1 h2 hn hp]
  simp only []
  set names := parseMaterialNames L1 with hnames
  set paths := parseTexturePaths L2 with hpaths
  set m := min names.length paths.length with hm
  refine ⟨by rw [if_pos hne], ?_, ?_⟩
  · rw [loop_log]
    simp only [List.nil_append]
  · refine ⟨_, rfl, ?_⟩
    obtain ⟨hcnt, -⟩ := loop_names_count env ((names.take m).zip (paths.take m))
        { st := st, created := [], log := [] }
        (st.materials.map (fun mt => mt.name)) (fun x => Iff.rfl)
    have hzlen : ((names.take m).zip (paths.take m)).length = m := by
      rw [List.length_zip, List.length_take, List.length_take]
      omega
    rw [hzlen] at hcnt
    simp only [List.length_nil] at hcnt
    omega

/-- A host whose two files have three name lines but only two path lines. -/
def envB : Env :=
  { envA with
    readFile := fun p =>
      if p = "names.txt" then .found ["a", "b", "c"]
      else if p = "paths.txt" then .found ["p1", "p2"]
      else .notFound }

/-- Witness for C3: 3 names against 2 paths warn, truncate to 2 and succeed. -/
theorem mismatch_truncates_warns_succeeds_witness :
    (create_materials_from_files envB st0 "names.txt" "paths.txt").warnings =
        [mismatchWarning (parseMaterialNames ["a", "b", "c"]).length
          (parseTexturePaths ["p1", "p2"]).length]
      ∧ (create_materials_from_files envB st0 "names.txt" "paths.txt").log =
        ((parseMaterialNames ["a", "b", "c"]).take
            (min (parseMaterialNames ["a", "b", "c"]).length
              (parseTexturePaths ["p1", "p2"]).length)).zip
          ((parseTexturePaths ["p1", "p2"]).take
            (min (parseMaterialNames ["a", "b", "c"]).length
              (parseTexturePaths ["p1", "p2"]).length))
      ∧ ∃ c, (create_materials_from_files envB st0 "names.txt" "paths.txt").outcome =
            .success c
          ∧ c ≤ min (parseMaterialNames ["a", "b", "c"]).length
              (parseTexturePaths ["p1", "p2"]).length :=
  mismatch_truncates_warns_succeeds envB st0 "names.txt" "paths.txt" _ _
    (by decide) (by decide) (by decide) (by decide) (by decide)

/-! ### C4 -/

/-- C4: the loop iterates exactly over the positional pairs of the two
parsed lists (truncated to the shorter length): the pair processed at
position `i` is line `i` of the names file with line `i` of the paths file. -/
theorem pairing_by_line_index (env : Env) (st : BState)
    (ip pp : String) (L1 L2 : List String)
    (h1 : env.readFile ip = .found L1) (h2 : env.readFile pp = .found L2)
    (hn : parseMaterialNames L1 ≠ []) (hp : parseTexturePaths L2 ≠ []) :
    (create_materials_from_files env st ip pp).log.length =
        min (parseMaterialNames L1).length (parseTexturePaths L2).length
      ∧ ∀ i, i < min (parseMaterialNames L1).length (parseTexturePaths L2).length →
        ∃ a b, (parseMaterialNames L1)[i]? = some a
          ∧ (parseTexturePaths L2)[i]? = some b
          ∧ (create_materials_from_files env st ip pp).log[i]? = some (a, b) := by
  rw [create_run env st ip pp L1 L2 h1 h2 hn hp]
  simp only []
  rw [loop_log]
  simp only [List.nil_append]
  set names := parseMaterialNames L1 with hnames
  set paths := parseTexturePaths L2 with hpaths
  set m := min names.length paths.length with hm
  have hzlen : ((names.take m).zip (paths.take m)).length = m := by
    rw [List.length_zip, List.length_take, List.length_take]
    omega
  refine ⟨hzlen, ?_⟩
  intro i hi
  have hin : i < names.length := by omega
  have hip : i < paths.length := by omega
  refine ⟨names.get ⟨i, hin⟩, paths.get ⟨i, hip⟩,
    List.getElem?_eq_getElem hin, List.getElem?_eq_getElem hip, ?_⟩
  rw [List.getElem?_zip_eq_some]
  exact ⟨by rw [List.getElem?_take_of_lt hi]; exact List.getElem?_eq_getElem hin,
    by rw [List.getElem?_take_of_lt hi]; exact List.getElem?_eq_getElem hip⟩

/-- Witness for C4, on the mismatched 3-names/2-paths host. -/
theorem pairing_by_line_index_witness :
    (create_materials_from_files envB st0 "names.txt" "paths.txt").log.length =
        min (parseMaterialNames ["a", "b", "c"]).length
          (parseTexturePaths ["p1", "p2"]).length
      ∧ ∀ i, i < min (parseMaterialNames ["a", "b", "c"]).length
            (parseTexturePaths ["p1", "p2"]).length →
        ∃ a b, (parseMaterialNames ["a", "b", "c"])[i]? = some a
          ∧ (parseTexturePaths ["p1", "p2"])[i]? = some b
          ∧ (create_materials_from_files envB st0 "names.txt" "paths.txt").log[i]? =
              some (a, b) :=
  pairing_by_line_index envB st0 "names.txt" "paths.txt" _ _
    (by decide) (by decide) (by decide) (by decide)

/-! ### C6 -/

/-- C6: a missing input file (either one) makes the run fail with the
"Could not find ..." message naming that file, with the material collection
(and all host state) unchanged. -/
theorem missing_file_fails_without_side_effects (env : Env) (st : BState)
    (ip pp : String) :
    (env.readFile ip = .notFound →
      create_materials_from_files env st ip pp =
        { outcome := .failure ("Could not find input file: " ++ ip),
          warnings := [], log := [], state := st })
    ∧ ∀ L1, env.readFile ip = .found L1 → env.readFile pp = .notFound →
      create_materials_from_files env st ip pp =
        { outcome := .failure ("Could not find path file: " ++ pp),
          warnings := [], log := [], state := st } := by
  constructor
  · intro h
    unfold create_materials_from_files
    rw [h]
  · intro L1 h1 h2
    unfold create_materials_from_files
    rw [h1, h2]

/-- Witness for C6: a run against an absent names file, and a run with a
present names file but absent paths file. -/
theorem missing_file_fails_without_side_effects_witness :
    (create_materials_from_files envA st0 "absent.txt" "paths.txt" =
        { outcome := .failure ("Could not find input file: " ++ "absent.txt"),
          warnings := [], log := [], state := st0 })
    ∧ create_materials_from_files envA st0 "names.txt" "absent.txt" =
        { outcome := .failure ("Could not find path file: " ++ "absent.txt"),
          warnings := [], log := [], state := st0 } :=
  ⟨(missing_file_fails_without_side_effects envA st0 "absent.txt" "paths.txt").1
      (by decide),
   (missing_file_fails_without_side_effects envA st0 "names.txt" "absent.txt").2
      ["  a  ", "", "b", "a"] (by decide) (by decide)⟩

/-! ### C9 -/

/-- C9: a file with no non-blank lines makes the run fail with the matching
"No ... found" message and leaves the host state unchanged, rather than
succeeding with count zero. -/
theorem empty_parsed_input_fails (env : Env) (st : BState)
    (ip pp : String) (L1 L2 : List String)
    (h1 : env.readFile ip = .found L1) (h2 : env.readFile pp = .found L2) :
    (parseMaterialNames L1 = [] →
      create_materials_from_files env st ip pp =
        { outcome := .failure "No material names found in input file",
          warnings := [], log := [], state := st })
    ∧ (parseMaterialNames L1 ≠ [] → parseTexturePaths L2 = [] →
      create_materials_from_files env st ip pp =
        { outcome := .failure "No texture paths found in path file",
          warnings := [], log := [], state := st }) := by
  constructor
  · intro hn
    unfold create_materials_from_files
    rw [h1, h2]
    simp only []
    rw [if_pos (by rw [List.isEmpty_eq_true]; exact hn)]
  · intro hn hp
    unfold create_materials_from_files
    rw [h1, h2]
    simp only []
    rw [if_neg (by rw [List.isEmpty_eq_true]; exact hn)]
    rw [if_pos (by rw [List.isEmpty_eq_true]; exact hp)]

/-- A host whose names file contains only blank lines and whose paths file
contains only quote-only lines (non-blank, so the paths parse is non-empty
in the second run below). -/
def envC : Env :=
  { envA with
    readFile := fun p =>
      if p = "blank.txt" then .found ["   ", "", "\t"]
      else if p = "paths.txt" then .found ["p1"]
      else if p = "names.txt" then .found ["a"]
      else if p = "blankpaths.txt" then .found [" ", ""]
      else .notFound }

/-- Witness for C9: blank names file fails with the names message; blank
paths file fails with the paths message. -/
theorem empty_parsed_input_fails_witness :
    (create_materials_from_files envC st0 "blank.txt" "paths.txt" =
        { outcome := .failure "No material names found in input file",
          warnings := [], log := [], state := st0 })
    ∧ create_materials_from_files envC st0 "names.txt" "blankpaths.txt" =
        { outcome := .failure "No texture paths found in path file",
          warnings := [], log := [], state := st0 } :=
  ⟨(empty_parsed_input_fails envC st0 "blank.txt" "paths.txt" ["   ", "", "\t"]
      ["p1"] (by decide) (by decide)).1 (by decide),
   (empty_parsed_input_fails envC st0 "names.txt" "blankpaths.txt" ["a"]
      [" ", ""] (by decide) (by decide)).2 (by decide) (by decide)⟩

/-! ### C7 -/

/-- C7: for a texture path that does not exist on disk and matches no
already-loaded image, the loop creates a fresh 1024x1024 placeholder image
carrying the missing (normalized) path as its filepath, attaches it to the new
material's image texture node, and the material is still created and counted. -/
theorem missing_texture_gets_placeholder (env : Env) (ls : LoopState)
    (n p : String)
    (hskip : (ls.st.materials.map (fun m => m.name)).contains n = false)
    (hfind : ls.st.images.findIdx?
        (fun im => im.filepath != "" && env.normpath im.filepath == env.normpath p)
        = none)
    (hdisk : env.diskExists (env.normpath p) = false)
    (hnew : env.newImageRaises (env.basename (env.normpath p)) = false) :
    processPair env ls (n, p) =
      { st := { materials := ls.st.materials ++
                  [{ name := n, nodes := shaderNodeTypes, links := 5,
                     baseColor := none, texImage := some ls.st.images.length,
                     isAsset := false }],
                images := ls.st.images ++
                  [{ name := env.basename (env.normpath p),
                     filepath := env.normpath p,
                     width := 1024, height := 1024, source := "FILE" }] },
        created := ls.created ++ [ls.st.materials.length],
        log := ls.log ++ [(n, p)] } := by
  have htex : texSetup env ls.st.images p =
      .ok (ls.st.images ++
          [{ name := env.basename (env.normpath p), filepath := env.normpath p,
             width := 1024, height := 1024, source := "FILE" }],
        ls.st.images.length) := by
    unfold texSetup
    simp only []
    rw [hfind]
    rw [if_neg (by rw [hdisk]; exact Bool.false_ne_true),
      if_neg (by rw [hnew]; exact Bool.false_ne_true)]
  have hnot : ¬ ((ls.st.materials.map (fun m => m.name)).contains (n, p).1 = true) := by
    rw [hskip]; exact Bool.false_ne_true
  unfold processPair
  rw [if_neg hnot]
  simp only []
  rw [htex]

/-- Witness for C7: processing ("m1", "missing.png") in an empty scene on a
host with nothing on disk creates the placeholder. -/
theorem missing_texture_gets_placeholder_witness :
    processPair envA { st := st0, created := [], log := [] } ("m1", "missing.png") =
      { st := { materials := [{ name := "m1", nodes := shaderNodeTypes, links := 5,
                                baseColor := none, texImage := some 0,
                                isAsset := false }],
                images := [{ name := envA.basename (envA.normpath "missing.png"),
                             filepath := envA.normpath "missing.png",
                             width := 1024, height := 1024, source := "FILE" }] },
        created := [0], log := [("m1", "missing.png")] } :=
  missing_texture_gets_placeholder envA { st := st0, created := [], log := [] }
    "m1" "missing.png" (by decide) (by decide) (by decide) (by decide)

/-! ### C8 -/

/-- A host on which every texture file exists but loading always raises. -/
def envErr : Env :=
  { envA with
    readFile := fun p =>
      if p = "names.txt" then .found ["m1"]
      else if p = "paths.txt" then .found ["p1"]
      else .notFound,
    diskExists := fun _ => true,
    loadRaises := fun _ => true }

/-- C8: when a host-API call inside the texture setup raises, the material is
still created — with the Principled BSDF Base Color set to the fallback
(0.8, 0.2, 0.2, 1.0) and no image attached — and still counted; and a run
that passes the input checks always ends in success. -/
theorem texture_error_sets_fallback_and_run_succeeds :
    (∀ (env : Env) (ls : LoopState) (n p : String),
      (ls.st.materials.map (fun m => m.name)).contains n = false →
      texSetup env ls.st.images p = .error () →
      processPair env ls (n, p) =
        { st := { materials := ls.st.materials ++
                    [{ name := n, nodes := shaderNodeTypes, links := 4,
                       baseColor := some fallbackColor, texImage := none,
                       isAsset := false }],
                  images := ls.st.images },
          created := ls.created ++ [ls.st.materials.length],
          log := ls.log ++ [(n, p)] })
    ∧ ∀ (env : Env) (st : BState) (ip pp : String) (L1 L2 : List String),
        env.readFile ip = .found L1 → env.readFile pp = .found L2 →
        parseMaterialNames L1 ≠ [] → parseTexturePaths L2 ≠ [] →
        ∃ c, (create_materials_from_files env st ip pp).outcome = .success c := by
  constructor
  · intro env ls n p hskip htex
    have hnot : ¬ ((ls.st.materials.map (fun m => m.name)).contains (n, p).1 = true) := by
      rw [hskip]; exact Bool.false_ne_true
    unfold processPair
    rw [if_neg hnot]
    simp only []
    rw [htex]
  · intro env st ip pp L1 L2 h1 h2 hn hp
    rw [create_run env st ip pp L1 L2 h1 h2 hn hp]
    exact ⟨_, rfl⟩

/-- Witness for C8: on `envErr` the load of "p1" raises, the material gets
the fallback colour, and the whole run still succeeds. -/
theorem texture_error_sets_fallback_and_run_succeeds_witness :
    (processPair envErr { st := st0, created := [], log := [] } ("m1", "p1") =
      { st := { materials := [{ name := "m1", nodes := shaderNodeTypes, links := 4,
                                baseColor := some fallbackColor, texImage := none,
                                isAsset := false }],
                images := [] },
        created := [0], log := [("m1", "p1")] })
    ∧ ∃ c, (create_materials_from_files envErr st0 "names.txt" "paths.txt").outcome =
        .success c :=
  ⟨texture_error_sets_fallback_and_run_succeeds.1 envErr
      { st := st0, created := [], log := [] } "m1" "p1" (by decide) rfl,
   texture_error_sets_fallback_and_run_succeeds.2 envErr st0 "names.txt" "paths.txt"
      ["m1"] ["p1"] (by decide) (by decide) (by decide) (by decide)⟩

/-! ### C10 -/

/-- C10: a pair whose material name already exists in the collection is
skipped entirely — the host state and the created list are unchanged (the
existing material is untouched, no nodes or images appear) — and the asset
marking pass touches only the indices of materials created by this run. -/
theorem existing_name_skipped_untouched :
    (∀ (env : Env) (ls : LoopState) (pair : String × String),
      (ls.st.materials.map (fun m => m.name)).contains pair.1 = true →
      processPair env ls pair = { ls with log := ls.log ++ [pair] })
    ∧ ∀ (env : Env) (mats : List Material) (created : List Nat) (j : Nat),
        j ∉ created → (markAssets env mats created)[j]? = mats[j]? := by
  constructor
  · exact fun env ls pair h => processPair_skipped env ls pair h
  · intro env mats created
    induction created generalizing mats with
    | nil => intro j h; rfl
    | cons c cr ih =>
      intro j h
      have hj : j ∉ cr := fun hm => h (List.mem_cons_of_mem c hm)
      have hne : c ≠ j := fun he => h (he ▸ List.mem_cons_self c cr)
      calc (markAssets env mats (c :: cr))[j]?
          = (markAssets env (markOne env mats c) cr)[j]? := rfl
        _ = (markOne env mats c)[j]? := ih (markOne env mats c) j hj
        _ = mats[j]? := listModify_getElem?_ne _ c j mats hne

/-- Witness for C10: a pair named like the existing material "a" leaves the
loop state unchanged (with only the log print), and marking created index 0
does not touch the material at index 1. -/
theorem existing_name_skipped_untouched_witness :
    (processPair envA
        { st := { materials := [{ name := "a", nodes := [], links := 0,
                                  baseColor := none, texImage := none,
                                  isAsset := false }],
                  images := [] },
          created := [], log := [] } ("a", "p9") =
      { st := { materials := [{ name := "a", nodes := [], links := 0,
                                baseColor := none, texImage := none,
                                isAsset := false }],
                images := [] },
        created := [], log := [("a", "p9")] })
    ∧ (markAssets envA
        [{ name := "x", nodes := [], links := 0, baseColor := none,
           texImage := none, isAsset := false },
         { name := "a", nodes := [], links := 0, baseColor := none,
           texImage := none, isAsset := false }] [0])[1]? =
      [{ name := "x", nodes := [], links := 0, baseColor := none,
         texImage := none, isAsset := false },
       { name := "a", nodes := [], links := 0, baseColor := none,
         texImage := none, isAsset := false }][1]? :=
  ⟨existing_name_skipped_untouched.1 envA
      { st := { materials := [{ name := "a", nodes := [], links := 0,
                                baseColor := none, texImage := none,
                                isAsset := false }],
                images := [] },
        created := [], log := [] } ("a", "p9") (by decide),
   existing_name_skipped_untouched.2 envA
      [{ name := "x", nodes := [], links := 0, baseColor := none,
         texImage := none, isAsset := false },
       { name := "a", nodes := [], links := 0, baseColor := none,
         texImage := none, isAsset := false }] [0] 1 (by decide)⟩

/-! ### C2 -/

/-- The grid width computed on naturals agrees with `math.ceil(math.sqrt(n))`
read over the reals. -/
theorem natCeilSqrt_eq_ceil_real_sqrt (n : Nat) :
    natCeilSqrt n = Nat.ceil (Real.sqrt (n : ℝ)) := by
  unfold natCeilSqrt
  by_cases h : Nat.sqrt n * Nat.sqrt n = n
  · rw [if_pos h]
    have hc : (n : ℝ) = (Nat.sqrt n : ℝ) * (Nat.sqrt n : ℝ) := by
      exact_mod_cast h.symm
    rw [hc, Real.sqrt_mul_self (by positivity)]
    exact (Nat.ceil_natCast _).symm
  · rw [if_neg h]
    have hlt : Nat.sqrt n * Nat.sqrt n < n := lt_of_le_of_ne (Nat.sqrt_le n) h
    symm
    rw [Nat.ceil_eq_iff (Nat.succ_ne_zero _)]
    constructor
    · have h2 : Nat.sqrt n ^ 2 < n := by rw [pow_two]; exact hlt
      have h3 : ((Nat.sqrt n : ℝ)) < Real.sqrt (n : ℝ) := by
        rw [Real.lt_sqrt (Nat.cast_nonneg _)]
        exact_mod_cast h2
      simpa using h3
    · have hle := Real.real_sqrt_le_nat_sqrt_succ (a := n)
      push_cast
      exact hle

/-- C2: with `n` materials, `create_material_planes` succeeds and lays the
planes out on a grid of width `w = ceil(sqrt(n))`: the plane for material `i`
(0-based) carries that material, and sits at column `i % w`, row `i / w`,
world position `(col * 2.5, row * 2.5, 0)`. -/
theorem planes_grid_layout (mats : List Material) (h : mats ≠ []) :
    ∃ planes msg, create_material_planes mats = .success planes msg
      ∧ planes.length = mats.length
      ∧ natCeilSqrt mats.length = Nat.ceil (Real.sqrt (mats.length : ℝ))
      ∧ ∀ i (hi : i < mats.length),
          planes[i]? = some
            { name := (mats.get ⟨i, hi⟩).name,
              meshName := "Plane_" ++ (mats.get ⟨i, hi⟩).name,
              materialName := (mats.get ⟨i, hi⟩).name,
              position :=
                (((i % natCeilSqrt mats.length : Nat) : ℚ) * (2.5 : ℚ),
                 ((i / natCeilSqrt mats.length : Nat) : ℚ) * (2.5 : ℚ), 0) } := by
  have hne : ¬ (mats.isEmpty = true) := by rw [List.isEmpty_eq_true]; exact h
  refine ⟨mats.enum.map (fun p => planeFor (natCeilSqrt mats.length) p.1 p.2.name),
    "Successfully created " ++ toString mats.length ++
      " planes arranged in a " ++ toString (natCeilSqrt mats.length) ++ "x" ++
      toString ((mats.length + natCeilSqrt mats.length - 1) / natCeilSqrt mats.length)
      ++ " grid",
    ?_, ?_, natCeilSqrt_eq_ceil_real_sqrt mats.length, ?_⟩
  · unfold create_material_planes
    rw [if_neg hne]
  · rw [List.length_map, List.enum_length]
  · intro i hi
    rw [List.getElem?_map, List.getElem?_enum, List.getElem?_eq_getElem hi]
    have hgs : grid_spacing = (2.5 : ℚ) := by
      norm_num [grid_spacing, plane_size, spacing]
    unfold planeFor
    rw [hgs]
    rfl

/-- Witness for C2, on a scene with five (identical) materials: the grid
width is 3. -/
theorem planes_grid_layout_witness :
    ∃ planes msg,
      create_material_planes [default, default, default, default, default] =
          .success planes msg
        ∧ planes.length =
            ([default, default, default, default, default] : List Material).length
        ∧ natCeilSqrt ([default, default, default, default, default] :
              List Material).length =
            Nat.ceil (Real.sqrt
              ((([default, default, default, default, default] :
                  List Material).length : Nat) : ℝ))
        ∧ ∀ i (hi : i < ([default, default, default, default, default] :
              List Material).length),
            planes[i]? = some
              { name := (([default, default, default, default, default] :
                    List Material).get ⟨i, hi⟩).name,
                meshName := "Plane_" ++
                  (([default, default, default, default, default] :
                      List Material).get ⟨i, hi⟩).name,
                materialName := (([default, default, default, default, default] :
                    List Material).get ⟨i, hi⟩).name,
                position :=
                  (((i % natCeilSqrt ([default, default, default, default, default] :
                        List Material).length : Nat) : ℚ) * (2.5 : ℚ),
                   ((i / natCeilSqrt ([default, default, default, default, default] :
                        List Material).length : Nat) : ℚ) * (2.5 : ℚ), 0) } :=
  planes_grid_layout [default, default, default, default, default] (by decide)

/-! ### C5 -/

theorem head?_dropWhile_false (p : α → Bool) (l : List α) (c : α)
    (h : (l.dropWhile p).head? = some c) : p c = false := by
  have hm := List.head?_dropWhile_not p l
  rw [h] at hm
  exact hm

theorem getLast?_dropWhile_of_ne_nil (p : α → Bool) (l : List α)
    (h : l.dropWhile p ≠ []) : (l.dropWhile p).getLast? = l.getLast? := by
  induction l with
  | nil => simp at h
  | cons a t ih =>
    rw [List.dropWhile_cons] at h ⊢
    by_cases hpa : p a
    · rw [if_pos hpa] at h ⊢
      cases t with
      | nil => simp at h
      | cons b t' =>
        rw [ih h]
        exact (List.getLast?_cons_cons).symm
    · rw [if_neg hpa]

theorem stripList_head?_false (p : Char → Bool) (l : List Char) (c : Char)
    (h : (stripList p l).head? = some c) : p c = false := by
  unfold stripList at h
  rw [List.head?_reverse] at h
  have hne : (l.dropWhile p).reverse.dropWhile p ≠ [] := by
    intro h0
    rw [h0] at h
    simp at h
  rw [getLast?_dropWhile_of_ne_nil p _ hne, List.getLast?_reverse] at h
  exact head?_dropWhile_false p l c h

theorem stripList_getLast?_false (p : Char → Bool) (l : List Char) (c : Char)
    (h : (stripList p l).getLast? = some c) : p c = false := by
  unfold stripList at h
  rw [List.getLast?_reverse] at h
  exact head?_dropWhile_false p _ c h

theorem stripList_of_ends_not (p : Char → Bool) (l : List Char)
    (hh : ∀ c, l.head? = some c → p c = false)
    (hl : ∀ c, l.getLast? = some c → p c = false) :
    stripList p l = l := by
  have h1 : l.dropWhile p = l := by
    cases l with
    | nil => rfl
    | cons a t =>
      have hpa : ¬ (p a = true) := by
        rw [hh a rfl]; exact Bool.false_ne_true
      rw [List.dropWhile_cons, if_neg hpa]
  unfold stripList
  rw [h1]
  have h2 : l.reverse.dropWhile p = l.reverse := by
    cases hrev : l.reverse with
    | nil => rfl
    | cons a t =>
      have ha : l.getLast? = some a := by
        rw [← List.head?_reverse, hrev]
        rfl
      have hpa : ¬ (p a = true) := by
        rw [hl a ha]; exact Bool.false_ne_true
      rw [List.dropWhile_cons, if_neg hpa]
  rw [h2, List.reverse_reverse]

/-- C5: each non-blank (whitespace-stripped) texture-path line is used with
all its surrounding single/double quote characters removed — the used path
neither starts nor ends with a quote character — and a line that is not
quoted (no leading and no trailing quote) is used completely unchanged. -/
theorem texture_path_quote_stripping (lines : List String) (l : String)
    (hmem : l ∈ lines) (hne : pyStrip l ≠ "") :
    stripQuotes (pyStrip l) ∈ parseTexturePaths lines
    ∧ (∀ c, (stripQuotes (pyStrip l)).toList.head? = some c → isQuoteChar c = false)
    ∧ (∀ c, (stripQuotes (pyStrip l)).toList.getLast? = some c → isQuoteChar c = false)
    ∧ ((∀ c, (pyStrip l).toList.head? = some c → isQuoteChar c = false) →
       (∀ c, (pyStrip l).toList.getLast? = some c → isQuoteChar c = false) →
       stripQuotes (pyStrip l) = pyStrip l) := by
  have htl : (stripQuotes (pyStrip l)).toList
      = stripList isQuoteChar (pyStrip l).toList := List.toList_asString _
  refine ⟨?_, ?_, ?_, ?_⟩
  · unfold parseTexturePaths
    exact List.mem_map_of_mem stripQuotes
      (List.mem_filter.2 ⟨List.mem_map_of_mem pyStrip hmem, by simpa using hne⟩)
  · intro c hc
    rw [htl] at hc
    exact stripList_head?_false isQuoteChar _ c hc
  · intro c hc
    rw [htl] at hc
    exact stripList_getLast?_false isQuoteChar _ c hc
  · intro hh hl
    unfold stripQuotes
    rw [stripList_of_ends_not isQuoteChar _ hh hl]
    exact String.asString_toList _

/-- Witness for C5 on the line `'p2'` of a two-line paths file: the quotes
are stripped, and the unquoted-line clause applies vacuously to itself. -/
theorem texture_path_quote_stripping_witness :
    stripQuotes (pyStrip "'p2'") ∈ parseTexturePaths ["\"p1\"", "'p2'"]
    ∧ (∀ c, (stripQuotes (pyStrip "'p2'")).toList.head? = some c →
        isQuoteChar c = false)
    ∧ (∀ c, (stripQuotes (pyStrip "'p2'")).toList.getLast? = some c →
        isQuoteChar c = false)
    ∧ ((∀ c, (pyStrip "'p2'").toList.head? = some c → isQuoteChar c = false) →
       (∀ c, (pyStrip "'p2'").toList.getLast? = some c → isQuoteChar c = false) →
       stripQuotes (pyStrip "'p2'") = pyStrip "'p2'") :=
  texture_path_quote_stripping ["\"p1\"", "'p2'"] "'p2'" (by decide) (by decide)

end MaterialCreator
